import Mathlib

/-!
Verification of the `cachetools.func` memoizing-decorator module.

The repository's source under scrutiny is `src/cachetools/func.py`: the six
decorators `fifo_cache`, `lfu_cache`, `lru_cache`, `mru_cache`, `rr_cache`
and `ttl_cache`.  The decorator-dispatch logic, the choice of key function,
the cache-constructor call sites and the `cache_parameters` closures are
embedded directly from that file.  The cache classes (`FIFOCache`,
`TTLCache`, ...), the `cached` wrapper and the `keys` module live outside
the given sources, so their behaviour is modelled from the specification
(each such definition says so in its doc comment).

Python callables (a user function, `random.choice`, `time.monotonic`) are
modelled as opaque natural-number identifiers where only their identity
matters; Python `None` is modelled by `Option.none`.
-/

namespace Cachetools

/-- A value passed as the first (`maxsize`) argument of a decorator: either a
callable (the bare-decorator form `@fifo_cache`) or an integer / `None`
(the parameterized form `@fifo_cache(...)`). -/
inductive FirstArg where
  | callableArg : FirstArg
  | sizeArg : Option Nat → FirstArg
deriving DecidableEq

/-- Python's `callable(...)` test on a `maxsize` argument. -/
def FirstArg.isCallable : FirstArg → Bool
  | .callableArg => true
  | .sizeArg _ => false

/-- The configuration captured by the inner `decorator` closure of
`fifo_cache` / `lfu_cache` / `lru_cache` / `mru_cache`: the (possibly
mutated) local variables `maxsize` and `typed`. -/
structure PlainCfg where
  maxsize : FirstArg
  typed : Bool
deriving DecidableEq

/-- The configuration captured by the inner `decorator` closure of
`rr_cache`: locals `maxsize`, `choice`, `typed`. -/
structure RrCfg where
  maxsize : FirstArg
  choice : Nat
  typed : Bool
deriving DecidableEq

/-- The configuration captured by the inner `decorator` closure of
`ttl_cache`: locals `maxsize`, `ttl`, `timer`, `typed`. -/
structure TtlCfg where
  maxsize : FirstArg
  ttl : Nat
  timer : Nat
  typed : Bool
deriving DecidableEq

/-- What a decorator invocation returns: either the inner `decorator`
closure itself (unapplied), or `decorator(user_function)` — the memoizing
wrapper for the user function.  Both are represented by the configuration
they capture. -/
inductive DecoratorResult (Cfg : Type) where
  | pendingDecorator : Cfg → DecoratorResult Cfg
  | wrapperOf : Cfg → DecoratorResult Cfg
deriving DecidableEq

/-- `fifo_cache(maxsize=128, typed=False)` (func.py lines 19-38).  If the
first argument is callable, the body rebinds `maxsize = 128` and
`typed = False`; the final line returns `decorator(user_function) if
callable(maxsize) else decorator`, testing the *rebound* `maxsize`. -/
def fifo_cache (arg : FirstArg) (typed0 : Bool) : DecoratorResult PlainCfg :=
  let maxsize := if arg.isCallable then FirstArg.sizeArg (some 128) else arg
  let typed := if arg.isCallable then false else typed0
  if maxsize.isCallable then
    DecoratorResult.wrapperOf ⟨maxsize, typed⟩
  else
    DecoratorResult.pendingDecorator ⟨maxsize, typed⟩

/-- `lfu_cache(maxsize=128, typed=False)` (func.py lines 40-59); same
dispatch as `fifo_cache`. -/
def lfu_cache (arg : FirstArg) (typed0 : Bool) : DecoratorResult PlainCfg :=
  let maxsize := if arg.isCallable then FirstArg.sizeArg (some 128) else arg
  let typed := if arg.isCallable then false else typed0
  if maxsize.isCallable then
    DecoratorResult.wrapperOf ⟨maxsize, typed⟩
  else
    DecoratorResult.pendingDecorator ⟨maxsize, typed⟩

/-- `lru_cache(maxsize=128, typed=False)` (func.py lines 61-80); same
dispatch as `fifo_cache`. -/
def lru_cache (arg : FirstArg) (typed0 : Bool) : DecoratorResult PlainCfg :=
  let maxsize := if arg.isCallable then FirstArg.sizeArg (some 128) else arg
  let typed := if arg.isCallable then false else typed0
  if maxsize.isCallable then
    DecoratorResult.wrapperOf ⟨maxsize, typed⟩
  else
    DecoratorResult.pendingDecorator ⟨maxsize, typed⟩

/-- `mru_cache(maxsize=128, typed=False)` (func.py lines 82-100); same
dispatch as `fifo_cache`. -/
def mru_cache (arg : FirstArg) (typed0 : Bool) : DecoratorResult PlainCfg :=
  let maxsize := if arg.isCallable then FirstArg.sizeArg (some 128) else arg
  let typed := if arg.isCallable then false else typed0
  if maxsize.isCallable then
    DecoratorResult.wrapperOf ⟨maxsize, typed⟩
  else
    DecoratorResult.pendingDecorator ⟨maxsize, typed⟩

/-- `rr_cache(maxsize=128, choice=random.choice, typed=False)` (func.py
lines 102-121).  The `choice` local is never touched by the
callable-first-argument rebinding. -/
def rr_cache (arg : FirstArg) (choice : Nat) (typed0 : Bool) :
    DecoratorResult RrCfg :=
  let maxsize := if arg.isCallable then FirstArg.sizeArg (some 128) else arg
  let typed := if arg.isCallable then false else typed0
  if maxsize.isCallable then
    DecoratorResult.wrapperOf ⟨maxsize, choice, typed⟩
  else
    DecoratorResult.pendingDecorator ⟨maxsize, choice, typed⟩

/-- `ttl_cache(maxsize=128, ttl=600, timer=time.monotonic, typed=False)`
(func.py lines 123-145).  The `ttl` and `timer` locals are never touched by
the callable-first-argument rebinding. -/
def ttl_cache (arg : FirstArg) (ttl : Nat) (timer : Nat) (typed0 : Bool) :
    DecoratorResult TtlCfg :=
  let maxsize := if arg.isCallable then FirstArg.sizeArg (some 128) else arg
  let typed := if arg.isCallable then false else typed0
  if maxsize.isCallable then
    DecoratorResult.wrapperOf ⟨maxsize, ttl, timer, typed⟩
  else
    DecoratorResult.pendingDecorator ⟨maxsize, ttl, timer, typed⟩

/-- A value appearing in a `cache_parameters()` dictionary. -/
inductive PVal where
  | num : Option Nat → PVal
  | boolVal : Bool → PVal
  | fnVal : Nat → PVal
deriving DecidableEq

/-- The dictionary returned by `wrapper.cache_parameters` for `fifo_cache`
(func.py line 35): `{"maxsize": maxsize, "typed": typed}`. -/
def fifo_cacheParameters (maxsize : Option Nat) (typed : Bool) :
    List (String × PVal) :=
  [("maxsize", PVal.num maxsize), ("typed", PVal.boolVal typed)]

/-- `wrapper.cache_parameters` for `lfu_cache` (func.py line 56). -/
def lfu_cacheParameters (maxsize : Option Nat) (typed : Bool) :
    List (String × PVal) :=
  [("maxsize", PVal.num maxsize), ("typed", PVal.boolVal typed)]

/-- `wrapper.cache_parameters` for `lru_cache` (func.py line 77). -/
def lru_cacheParameters (maxsize : Option Nat) (typed : Bool) :
    List (String × PVal) :=
  [("maxsize", PVal.num maxsize), ("typed", PVal.boolVal typed)]

/-- `wrapper.cache_parameters` for `mru_cache` (func.py line 97). -/
def mru_cacheParameters (maxsize : Option Nat) (typed : Bool) :
    List (String × PVal) :=
  [("maxsize", PVal.num maxsize), ("typed", PVal.boolVal typed)]

/-- `wrapper.cache_parameters` for `rr_cache` (func.py line 118):
`{"maxsize": maxsize, "typed": typed}` — the `choice` argument, although in
scope, is not included in the dictionary. -/
def rr_cacheParameters (maxsize : Option Nat) (choice : Nat) (typed : Bool) :
    List (String × PVal) :=
  [("maxsize", PVal.num maxsize), ("typed", PVal.boolVal typed)]

/-- `wrapper.cache_parameters` for `ttl_cache` (func.py line 142):
`{"maxsize": maxsize, "ttl": ttl, "timer": timer, "typed": typed}`. -/
def ttl_cacheParameters (maxsize : Option Nat) (ttl : Nat) (timer : Nat)
    (typed : Bool) : List (String × PVal) :=
  [("maxsize", PVal.num maxsize), ("ttl", PVal.num (some ttl)),
   ("timer", PVal.fnVal timer), ("typed", PVal.boolVal typed)]

/-- The capacity value handed to a cache constructor: a finite integer, the
float `math.inf`, or Python `None` passed through verbatim. -/
inductive Capacity where
  | fin : Nat → Capacity
  | inf : Capacity
  | noneVal : Capacity
deriving DecidableEq

/-- The constructor argument record of `FIFOCache(maxsize)` as called at
func.py line 34; `maxsize` is forwarded verbatim (also when it is `None`). -/
structure PlainCacheCtor where
  maxsize : Option Nat
deriving DecidableEq

/-- `FIFOCache(maxsize)` call site, func.py line 34. -/
def fifo_mkCache (maxsize : Option Nat) : PlainCacheCtor := ⟨maxsize⟩

/-- `LFUCache(maxsize)` call site, func.py line 55. -/
def lfu_mkCache (maxsize : Option Nat) : PlainCacheCtor := ⟨maxsize⟩

/-- `LRUCache(maxsize)` call site, func.py line 76. -/
def lru_mkCache (maxsize : Option Nat) : PlainCacheCtor := ⟨maxsize⟩

/-- `MRUCache(maxsize)` call site, func.py line 96. -/
def mru_mkCache (maxsize : Option Nat) : PlainCacheCtor := ⟨maxsize⟩

/-- The constructor argument record of `RRCache(maxsize, choice=choice)` as
called at func.py line 117: each instance receives the decorator
invocation's own `choice` callable. -/
structure RRCacheCtor where
  maxsize : Option Nat
  choice : Nat
deriving DecidableEq

/-- `RRCache(maxsize, choice=choice)` call site, func.py line 117. -/
def rr_mkCache (maxsize : Option Nat) (choice : Nat) : RRCacheCtor :=
  ⟨maxsize, choice⟩

/-- Key-value association lookup on a list of entries, first match wins. -/
def lookupKV {K V : Type} [DecidableEq K] : List (K × V) → K → Option V
  | [], _ => none
  | p :: ps, k => if p.1 = k then some p.2 else lookupKV ps k

/-- Modelled from the spec: the TTL cache (`TTLCache` / `_UnboundTTLCache`
are not among the given sources; spec §4.7).  Entries carry an absolute
expiration instant `expires_at = timer() + ttl`; the entry list is kept in
least-recently-used order (least recent first), the default capacity policy
being LRU among live entries.  `timer` is the per-instance injected clock
callable, modelled as an opaque identifier; its current reading is passed
explicitly as `now`. -/
structure TTLCache (K V : Type) where
  capacity : Capacity
  ttl : Nat
  timer : Nat
  entries : List (K × V × Nat)

/-- Modelled from the spec: an entry is live while `now < expires_at`
(an entry with `expires_at ≤ timer()` is purged, spec §4.7). -/
def entryLive (now expiresAt : Nat) : Bool := decide (now < expiresAt)

/-- Whether a cache of `n` entries is strictly below the capacity bound;
`math.inf` bounds nothing.  (`None` never reaches a TTL cache constructor:
func.py lines 137-140 replace it by `math.inf`.) -/
def belowCapacity (n : Nat) : Capacity → Bool
  | .fin m => decide (n < m)
  | .inf => true
  | .noneVal => false

/-- Modelled from the spec: lazy expiry — remove every entry whose
expiration instant has passed (spec §4.7). -/
def TTLCache.expire {K V : Type} (c : TTLCache K V) (now : Nat) :
    TTLCache K V :=
  { c with entries := c.entries.filter (fun e => entryLive now e.2.2) }

/-- Modelled from the spec: `set(key, value)` on a TTL cache (spec §4.1,
§4.7).  Expired entries are purged first; an existing key is overwritten and
moved to the most-recent end; a new key is appended, evicting the
least-recently-used live entry only when the cache is at a finite capacity
bound (and is a no-op on a zero-capacity cache). -/
def TTLCache.set {K V : Type} [DecidableEq K] (c : TTLCache K V) (now : Nat)
    (k : K) (v : V) : TTLCache K V :=
  let c := c.expire now
  let fresh : K × V × Nat := (k, v, now + c.ttl)
  if (lookupKV (c.entries.map (fun e => (e.1, e.2.1))) k).isSome then
    { c with entries := c.entries.filter (fun e => decide (e.1 ≠ k)) ++ [fresh] }
  else if belowCapacity c.entries.length c.capacity then
    { c with entries := c.entries ++ [fresh] }
  else if c.capacity = Capacity.fin 0 then
    c
  else
    { c with entries := c.entries.drop 1 ++ [fresh] }

/-- Modelled from the spec: `get(key)` on a TTL cache — an expired entry is
treated as absent (spec §4.7). -/
def TTLCache.get {K V : Type} [DecidableEq K] (c : TTLCache K V) (now : Nat)
    (k : K) : Option V :=
  lookupKV ((c.expire now).entries.map (fun e => (e.1, e.2.1))) k

/-- The TTL cache construction of func.py lines 137-140: `maxsize is None`
selects `_UnboundTTLCache(ttl, timer)`, whose constructor (func.py lines
14-17) calls `TTLCache.__init__(self, math.inf, ttl, timer)`; otherwise
`TTLCache(maxsize, ttl, timer)`. -/
def ttl_mkCache (K V : Type) (maxsize : Option Nat) (ttl : Nat)
    (timer : Nat) : TTLCache K V :=
  match maxsize with
  | none => { capacity := Capacity.inf, ttl := ttl, timer := timer, entries := [] }
  | some m => { capacity := Capacity.fin m, ttl := ttl, timer := timer, entries := [] }

/-- Modelled from the spec: a call argument for key derivation — a value
together with its runtime type, each modelled as an opaque identifier.
Two arguments may be equal in value while differing in type (Python's
`1 == 1.0`). -/
structure Arg where
  ty : Nat
  val : Nat
deriving DecidableEq

/-- Modelled from the spec: a derived cache key — either the plain tuple of
argument values (`keys.hashkey`) or that tuple augmented with the argument
types (`keys.typedkey`); the `keys` module is not among the given
sources (spec §2: the key optionally incorporates argument types). -/
inductive CacheKey where
  | plain : List Nat → CacheKey
  | typedTuple : List Nat → List Nat → CacheKey
deriving DecidableEq

/-- Modelled from the spec: `keys.hashkey` — argument values only. -/
def hashkey (args : List Arg) : CacheKey := CacheKey.plain (args.map Arg.val)

/-- Modelled from the spec: `keys.typedkey` — argument values and types. -/
def typedkey (args : List Arg) : CacheKey :=
  CacheKey.typedTuple (args.map Arg.val) (args.map Arg.ty)

/-- The key-function selection shared by all six decorators (func.py lines
33, 54, 75, 95, 116, 136): `keys.typedkey if typed else keys.hashkey`. -/
def keyFunc (typed : Bool) : List Arg → CacheKey :=
  if typed then typedkey else hashkey

/-- Modelled from the spec: the FIFO bounded cache (`FIFOCache` is not
among the given sources; spec §4.1-§4.2).  Entries are kept in insertion
order, oldest first; `get` never reorders. -/
structure FIFOCache (K V : Type) where
  capacity : Nat
  entries : List (K × V)

/-- Modelled from the spec: `get(key)` on a FIFO cache — pure lookup with
no side effect on eviction order (spec §4.2). -/
def FIFOCache.get {K V : Type} [DecidableEq K] (c : FIFOCache K V) (k : K) :
    Option V :=
  lookupKV c.entries k

/-- Modelled from the spec: `set(key, value)` on a FIFO cache (spec §4.1,
§4.2).  Overwriting an existing key preserves its original insertion order;
inserting a new key into a full cache first evicts the oldest entry; on a
zero-capacity cache the insert is a no-op. -/
def FIFOCache.set {K V : Type} [DecidableEq K] (c : FIFOCache K V) (k : K)
    (v : V) : FIFOCache K V :=
  if (lookupKV c.entries k).isSome then
    { c with entries := c.entries.map (fun p => if p.1 = k then (k, v) else p) }
  else if c.entries.length < c.capacity then
    { c with entries := c.entries ++ [(k, v)] }
  else if c.capacity = 0 then
    c
  else
    { c with entries := c.entries.drop 1 ++ [(k, v)] }

/-- Modelled from the spec: the per-wrapper state created by one
application of a decorator to a function (spec §4.8, §5): its own cache
instance and its own hit/miss statistics.  `calls` counts the invocations
of the underlying function, instrumenting the wrapper model. -/
structure WrapperState (K V : Type) where
  cache : FIFOCache K V
  hits : Nat
  misses : Nat
  calls : Nat

/-- The fresh wrapper state built by the inner `decorator` of `fifo_cache`
(func.py lines 31-36): a brand-new `FIFOCache(maxsize)` and zeroed
statistics, private to this one wrapper. -/
def decoratorApply (K V : Type) (maxsize : Nat) : WrapperState K V :=
  { cache := { capacity := maxsize, entries := [] },
    hits := 0, misses := 0, calls := 0 }

/-- Modelled from the spec: one call through the memoizing wrapper
(`cached` is not among the given sources; spec §4.8).  On a hit the stored
value is returned and the function is not invoked; on a miss the function
is invoked and, when it returns normally, its result is stored; when it
raises, the failure propagates and nothing is stored. -/
def cachedCall {K V E : Type} [DecidableEq K] (f : K → Except E V)
    (s : WrapperState K V) (k : K) : Except E V × WrapperState K V :=
  match s.cache.get k with
  | some v => (Except.ok v, { s with hits := s.hits + 1 })
  | none =>
    match f k with
    | Except.error e =>
        (Except.error e, { s with misses := s.misses + 1, calls := s.calls + 1 })
    | Except.ok v =>
        (Except.ok v, { s with misses := s.misses + 1, calls := s.calls + 1,
                               cache := s.cache.set k v })

/-- Two independently wrapped functions: each application of a decorator
built its own wrapper state (func.py lines 31-36 run once per
application). -/
structure TwoWrappers (K V : Type) where
  wa : WrapperState K V
  wb : WrapperState K V

/-- A call routed through the first of the two wrappers. -/
def callFirst {K V E : Type} [DecidableEq K] (f : K → Except E V)
    (t : TwoWrappers K V) (k : K) : TwoWrappers K V :=
  { t with wa := (cachedCall f t.wa k).2 }

/-- A sequence of calls routed through the first wrapper. -/
def runFirst {K V E : Type} [DecidableEq K] (f : K → Except E V)
    (t : TwoWrappers K V) (ks : List K) : TwoWrappers K V :=
  ks.foldl (fun t k => callFirst f t k) t

theorem lookupKV_append_single {K V : Type} [DecidableEq K]
    (l : List (K × V)) (k : K) (v : V) (h : lookupKV l k = none) :
    lookupKV (l ++ [(k, v)]) k = some v := by
  induction l with
  | nil => simp [lookupKV]
  | cons p ps ih =>
    by_cases hp : p.1 = k
    · simp [lookupKV, hp] at h
    · simp [lookupKV, hp] at h ⊢
      exact ih h

theorem lookupKV_drop_one_none {K V : Type} [DecidableEq K]
    (l : List (K × V)) (k : K) (h : lookupKV l k = none) :
    lookupKV (l.drop 1) k = none := by
  cases l with
  | nil => simp [lookupKV]
  | cons p ps =>
    by_cases hp : p.1 = k
    · simp [lookupKV, hp] at h
    · simpa [lookupKV, hp] using h

theorem FIFOCache.get_set_fresh {K V : Type} [DecidableEq K]
    (c : FIFOCache K V) (k : K) (v : V)
    (hmiss : c.get k = none) (hcap : 0 < c.capacity) :
    (c.set k v).get k = some v := by
  unfold FIFOCache.get at hmiss ⊢
  unfold FIFOCache.set
  by_cases hlen : c.entries.length < c.capacity
  · simp only [hmiss, Option.isSome_none, Bool.false_eq_true, if_false, hlen,
      if_true]
    exact lookupKV_append_single _ _ _ hmiss
  · have hc0 : ¬ c.capacity = 0 := by omega
    simp only [hmiss, Option.isSome_none, Bool.false_eq_true, if_false, hlen,
      hc0]
    exact lookupKV_append_single _ _ _ (lookupKV_drop_one_none _ _ hmiss)

/-- C1: for every decorated function and every argument key, calling the
memoizing wrapper a second time with the same key, with no intervening
eviction or expiry, returns the cached result, and the underlying function
is invoked exactly once across the two calls (the second call is a pure
cache hit). -/
theorem second_call_cached_invokes_once {K V E : Type} [DecidableEq K]
    (f : K → Except E V) (s : WrapperState K V) (k : K) (v : V)
    (hmiss : s.cache.get k = none)
    (hcap : 0 < s.cache.capacity)
    (hf : f k = Except.ok v) :
    (cachedCall f s k).1 = Except.ok v ∧
    (cachedCall f (cachedCall f s k).2 k).1 = Except.ok v ∧
    (cachedCall f (cachedCall f s k).2 k).2.calls = s.calls + 1 ∧
    (cachedCall f (cachedCall f s k).2 k).2.hits = s.hits + 1 := by
  have h1 : cachedCall f s k =
      (Except.ok v, { s with misses := s.misses + 1, calls := s.calls + 1,
                             cache := s.cache.set k v }) := by
    unfold cachedCall
    rw [hmiss, hf]
  have h2 : (s.cache.set k v).get k = some v :=
    FIFOCache.get_set_fresh _ _ _ hmiss hcap
  rw [h1]
  unfold cachedCall
  simp [h2]

/-- Witness for C1 at a concrete input: a fresh capacity-1 FIFO wrapper,
key 5, value 7. -/
theorem second_call_cached_invokes_once_witness :
    (decoratorApply Nat Nat 1).cache.get 5 = none ∧
    0 < (decoratorApply Nat Nat 1).cache.capacity ∧
    (fun _ : Nat => (Except.ok 7 : Except Nat Nat)) 5 = Except.ok 7 ∧
    ((cachedCall (fun _ : Nat => (Except.ok 7 : Except Nat Nat))
        (decoratorApply Nat Nat 1) 5).1 = Except.ok 7 ∧
      (cachedCall (fun _ : Nat => (Except.ok 7 : Except Nat Nat))
        (cachedCall (fun _ : Nat => (Except.ok 7 : Except Nat Nat))
          (decoratorApply Nat Nat 1) 5).2 5).1 = Except.ok 7 ∧
      (cachedCall (fun _ : Nat => (Except.ok 7 : Except Nat Nat))
        (cachedCall (fun _ : Nat => (Except.ok 7 : Except Nat Nat))
          (decoratorApply Nat Nat 1) 5).2 5).2.calls
        = (decoratorApply Nat Nat 1).calls + 1 ∧
      (cachedCall (fun _ : Nat => (Except.ok 7 : Except Nat Nat))
        (cachedCall (fun _ : Nat => (Except.ok 7 : Except Nat Nat))
          (decoratorApply Nat Nat 1) 5).2 5).2.hits
        = (decoratorApply Nat Nat 1).hits + 1) :=
  ⟨rfl, by decide, rfl,
    second_call_cached_invokes_once _ _ _ _ rfl (by decide) rfl⟩

/-- C8: if the underlying function raises on a cache miss, the failure
propagates unchanged to the caller, the cache contents are unchanged by the
failed call, and a subsequent call with the same key invokes the underlying
function again (two invocations across the two failing calls). -/
theorem raised_call_never_cached {K V E : Type} [DecidableEq K]
    (f : K → Except E V) (s : WrapperState K V) (k : K) (e : E)
    (hmiss : s.cache.get k = none)
    (hf : f k = Except.error e) :
    (cachedCall f s k).1 = Except.error e ∧
    (cachedCall f s k).2.cache = s.cache ∧
    (cachedCall f (cachedCall f s k).2 k).1 = Except.error e ∧
    (cachedCall f (cachedCall f s k).2 k).2.calls = s.calls + 2 := by
  have h1 : cachedCall f s k =
      (Except.error e, { s with misses := s.misses + 1,
                                calls := s.calls + 1 }) := by
    unfold cachedCall
    rw [hmiss, hf]
  rw [h1]
  unfold cachedCall
  simp [hmiss, hf]

/-- Witness for C8 at a concrete input: a fresh capacity-4 FIFO wrapper,
key 2, error 9. -/
theorem raised_call_never_cached_witness :
    (decoratorApply Nat Nat 4).cache.get 2 = none ∧
    (fun _ : Nat => (Except.error 9 : Except Nat Nat)) 2 = Except.error 9 ∧
    ((cachedCall (fun _ : Nat => (Except.error 9 : Except Nat Nat))
        (decoratorApply Nat Nat 4) 2).1 = Except.error 9 ∧
      (cachedCall (fun _ : Nat => (Except.error 9 : Except Nat Nat))
        (decoratorApply Nat Nat 4) 2).2.cache = (decoratorApply Nat Nat 4).cache ∧
      (cachedCall (fun _ : Nat => (Except.error 9 : Except Nat Nat))
        (cachedCall (fun _ : Nat => (Except.error 9 : Except Nat Nat))
          (decoratorApply Nat Nat 4) 2).2 2).1 = Except.error 9 ∧
      (cachedCall (fun _ : Nat => (Except.error 9 : Except Nat Nat))
        (cachedCall (fun _ : Nat => (Except.error 9 : Except Nat Nat))
          (decoratorApply Nat Nat 4) 2).2 2).2.calls
        = (decoratorApply Nat Nat 4).calls + 2) :=
  ⟨rfl, rfl, raised_call_never_cached _ _ _ _ rfl rfl⟩

/-- C7: each decorator application builds a fresh wrapper state of its own
(empty cache, zeroed statistics), and calls routed through one wrapper
leave a second, independently created wrapper's state — and therefore every
result subsequently observed through it — unchanged. -/
theorem independent_wrappers_isolated {K V E : Type} [DecidableEq K]
    (f g : K → Except E V) (t : TwoWrappers K V) (ks : List K) (k : K)
    (maxsize : Nat) :
    (runFirst f t ks).wb = t.wb ∧
    cachedCall g (runFirst f t ks).wb k = cachedCall g t.wb k ∧
    (decoratorApply K V maxsize).cache.entries = [] ∧
    (decoratorApply K V maxsize).hits = 0 ∧
    (decoratorApply K V maxsize).misses = 0 := by
  have hwb : ∀ (u : TwoWrappers K V) (l : List K), (runFirst f u l).wb = u.wb := by
    intro u l
    induction l generalizing u with
    | nil => rfl
    | cons a as ih => exact ih (callFirst f u a)
  exact ⟨hwb t ks, by rw [hwb t ks], rfl, rfl, rfl⟩

/-- C3: `ttl_cache` with `maxsize = None` constructs a TTL cache of
infinite capacity, and on such a cache `set` never removes a live entry
other than the one being overwritten — eviction happens by expiry only,
never by a capacity limit. -/
theorem ttl_none_unbounded_expiry_only {K V : Type} [DecidableEq K]
    (ttl timer : Nat) (c : TTLCache K V) (now : Nat) (k : K) (v : V)
    (e : K × V × Nat)
    (hcap : c.capacity = Capacity.inf)
    (hmem : e ∈ c.entries)
    (hlive : entryLive now e.2.2 = true)
    (hne : e.1 ≠ k) :
    (ttl_mkCache K V none ttl timer).capacity = Capacity.inf ∧
    e ∈ (c.set now k v).entries := by
  refine ⟨rfl, ?_⟩
  have hmem' : e ∈ (c.expire now).entries := by
    unfold TTLCache.expire
    exact List.mem_filter.mpr ⟨hmem, hlive⟩
  have hcap' : (c.expire now).capacity = Capacity.inf := hcap
  unfold TTLCache.set
  by_cases hov :
      (lookupKV ((c.expire now).entries.map (fun x => (x.1, x.2.1))) k).isSome
  · simp only [hov, if_true]
    exact List.mem_append.mpr
      (Or.inl (List.mem_filter.mpr ⟨hmem', by simpa using hne⟩))
  · simp only [hov, Bool.false_eq_true, if_false, hcap', belowCapacity,
      if_true]
    exact List.mem_append.mpr (Or.inl hmem')

/-- Witness for C3 at a concrete input: an unbounded cache holding a live
entry `(1, 5, 20)` at time 7 keeps it across `set 3 9`. -/
theorem ttl_none_unbounded_expiry_only_witness :
    (TTLCache.mk Capacity.inf 10 0
        [(1, 5, 20), (2, 6, 30)] : TTLCache Nat Nat).capacity
      = Capacity.inf ∧
    ((1, 5, 20) : Nat × Nat × Nat) ∈
      (TTLCache.mk Capacity.inf 10 0 [(1, 5, 20), (2, 6, 30)]
        : TTLCache Nat Nat).entries ∧
    entryLive 7 20 = true ∧
    (1 : Nat) ≠ 3 ∧
    ((ttl_mkCache Nat Nat none 10 0).capacity = Capacity.inf ∧
      ((1, 5, 20) : Nat × Nat × Nat) ∈
        ((TTLCache.mk Capacity.inf 10 0 [(1, 5, 20), (2, 6, 30)]
          : TTLCache Nat Nat).set 7 3 9).entries) :=
  ⟨rfl, by decide, by decide, by decide,
    ttl_none_unbounded_expiry_only 10 0 _ 7 3 9 (1, 5, 20) rfl (by decide)
      (by decide) (by decide)⟩

/-- C4: the key function is `keys.typedkey` exactly when `typed` is true
and `keys.hashkey` exactly when it is false; two argument lists equal in
value but different in type derive the same key exactly when `typed` is
false. -/
theorem typed_selects_key_function (typed : Bool) (a b : List Arg)
    (hv : a.map Arg.val = b.map Arg.val)
    (ht : a.map Arg.ty ≠ b.map Arg.ty) :
    (keyFunc typed = typedkey ↔ typed = true) ∧
    (keyFunc typed = hashkey ↔ typed = false) ∧
    keyFunc false a = keyFunc false b ∧
    keyFunc true a ≠ keyFunc true b ∧
    (keyFunc typed a = keyFunc typed b ↔ typed = false) := by
  have hfns : (typedkey : List Arg → CacheKey) ≠ hashkey := by
    intro h
    have h0 := congrFun h []
    simp [typedkey, hashkey] at h0
  have hsame : keyFunc false a = keyFunc false b := by
    simp [keyFunc, hashkey, hv]
  have hdiff : keyFunc true a ≠ keyFunc true b := by
    intro h
    simp only [keyFunc, if_true, typedkey, CacheKey.typedTuple.injEq] at h
    exact ht h.2
  cases typed with
  | false =>
    refine ⟨?_, ?_, hsame, hdiff, ?_⟩
    · constructor
      · intro h
        exact absurd h.symm hfns
      · intro h
        exact absurd h (by simp)
    · simp [keyFunc]
    · simp [hsame]
  | true =>
    refine ⟨?_, ?_, hsame, hdiff, ?_⟩
    · simp [keyFunc]
    · constructor
      · intro h
        exact absurd h hfns
      · intro h
        exact absurd h (by simp)
    · simp [hdiff]

/-- Witness for C4 at a concrete input: one argument of value 1 with type
tag 0 versus type tag 1, with `typed = true`. -/
theorem typed_selects_key_function_witness :
    [Arg.mk 0 1].map Arg.val = [Arg.mk 1 1].map Arg.val ∧
    [Arg.mk 0 1].map Arg.ty ≠ [Arg.mk 1 1].map Arg.ty ∧
    ((keyFunc true = typedkey ↔ true = true) ∧
      (keyFunc true = hashkey ↔ true = false) ∧
      keyFunc false [Arg.mk 0 1] = keyFunc false [Arg.mk 1 1] ∧
      keyFunc true [Arg.mk 0 1] ≠ keyFunc true [Arg.mk 1 1] ∧
      (keyFunc true [Arg.mk 0 1] = keyFunc true [Arg.mk 1 1] ↔
        true = false)) :=
  ⟨rfl, by decide,
    typed_selects_key_function true [Arg.mk 0 1] [Arg.mk 1 1] rfl (by decide)⟩

/-- C5: evaluating every decorator at a callable first argument (the bare
form `@fifo_cache`).  Because the body rebinds `maxsize` to 128 before the
final line retests `callable(maxsize)`, each bare application returns the
inner `decorator` closure unapplied — never the memoizing wrapper of the
user function that the bare syntax is meant to produce. -/
theorem bare_form_returns_decorator_unapplied :
    fifo_cache FirstArg.callableArg false
      = DecoratorResult.pendingDecorator ⟨FirstArg.sizeArg (some 128), false⟩ ∧
    lfu_cache FirstArg.callableArg false
      = DecoratorResult.pendingDecorator ⟨FirstArg.sizeArg (some 128), false⟩ ∧
    lru_cache FirstArg.callableArg false
      = DecoratorResult.pendingDecorator ⟨FirstArg.sizeArg (some 128), false⟩ ∧
    mru_cache FirstArg.callableArg false
      = DecoratorResult.pendingDecorator ⟨FirstArg.sizeArg (some 128), false⟩ ∧
    rr_cache FirstArg.callableArg 7 false
      = DecoratorResult.pendingDecorator ⟨FirstArg.sizeArg (some 128), 7, false⟩ ∧
    ttl_cache FirstArg.callableArg 600 3 false
      = DecoratorResult.pendingDecorator
          ⟨FirstArg.sizeArg (some 128), 600, 3, false⟩ ∧
    (∀ cfg : PlainCfg,
      fifo_cache FirstArg.callableArg false ≠ DecoratorResult.wrapperOf cfg) ∧
    (∀ cfg : PlainCfg,
      lfu_cache FirstArg.callableArg false ≠ DecoratorResult.wrapperOf cfg) ∧
    (∀ cfg : PlainCfg,
      lru_cache FirstArg.callableArg false ≠ DecoratorResult.wrapperOf cfg) ∧
    (∀ cfg : PlainCfg,
      mru_cache FirstArg.callableArg false ≠ DecoratorResult.wrapperOf cfg) ∧
    (∀ cfg : RrCfg,
      rr_cache FirstArg.callableArg 7 false ≠ DecoratorResult.wrapperOf cfg) ∧
    (∀ cfg : TtlCfg,
      ttl_cache FirstArg.callableArg 600 3 false
        ≠ DecoratorResult.wrapperOf cfg) := by
  refine ⟨rfl, rfl, rfl, rfl, rfl, rfl, ?_, ?_, ?_, ?_, ?_, ?_⟩ <;>
    · intro cfg h
      simp [fifo_cache, lfu_cache, lru_cache, mru_cache, rr_cache, ttl_cache,
        FirstArg.isCallable] at h

/-- C10: invoked with a callable first argument, every decorator forces
`typed` to `False` even when `typed` was explicitly supplied as true, while
`rr_cache`'s `choice` and `ttl_cache`'s `ttl` and `timer` keep the supplied
values. -/
theorem bare_form_forces_typed_false (t : Bool) (choice ttl timer : Nat) :
    fifo_cache FirstArg.callableArg t
      = DecoratorResult.pendingDecorator ⟨FirstArg.sizeArg (some 128), false⟩ ∧
    lfu_cache FirstArg.callableArg t
      = DecoratorResult.pendingDecorator ⟨FirstArg.sizeArg (some 128), false⟩ ∧
    lru_cache FirstArg.callableArg t
      = DecoratorResult.pendingDecorator ⟨FirstArg.sizeArg (some 128), false⟩ ∧
    mru_cache FirstArg.callableArg t
      = DecoratorResult.pendingDecorator ⟨FirstArg.sizeArg (some 128), false⟩ ∧
    rr_cache FirstArg.callableArg choice t
      = DecoratorResult.pendingDecorator
          ⟨FirstArg.sizeArg (some 128), choice, false⟩ ∧
    ttl_cache FirstArg.callableArg ttl timer t
      = DecoratorResult.pendingDecorator
          ⟨FirstArg.sizeArg (some 128), ttl, timer, false⟩ :=
  ⟨rfl, rfl, rfl, rfl, rfl, rfl⟩

/-- Counterexample to C2: the `cache_parameters` dictionary of an
`rr_cache` wrapper does not contain the selection function — there is no
`"choice"` entry even though a `choice` argument was supplied. -/
theorem rr_cacheParameters_omits_choice :
    ¬ ("choice" ∈ (rr_cacheParameters (some 128) 7 false).map Prod.fst) := by
  decide

/-- C2 amended: `cache_parameters` returns `maxsize` and `typed` for
`fifo_cache`, `lfu_cache`, `lru_cache`, `mru_cache` and `rr_cache` (the
`rr_cache` selection function is not included), and `maxsize`, `ttl`,
`timer` and `typed` for `ttl_cache`. -/
theorem cacheParameters_contents (maxsize : Option Nat)
    (choice ttl timer : Nat) (typed : Bool) :
    (fifo_cacheParameters maxsize typed).map Prod.fst
      = ["maxsize", "typed"] ∧
    (lfu_cacheParameters maxsize typed).map Prod.fst
      = ["maxsize", "typed"] ∧
    (lru_cacheParameters maxsize typed).map Prod.fst
      = ["maxsize", "typed"] ∧
    (mru_cacheParameters maxsize typed).map Prod.fst
      = ["maxsize", "typed"] ∧
    (rr_cacheParameters maxsize choice typed).map Prod.fst
      = ["maxsize", "typed"] ∧
    (ttl_cacheParameters maxsize ttl timer typed).map Prod.fst
      = ["maxsize", "ttl", "timer", "typed"] ∧
    lookupKV (rr_cacheParameters maxsize choice typed) "maxsize"
      = some (PVal.num maxsize) ∧
    lookupKV (rr_cacheParameters maxsize choice typed) "typed"
      = some (PVal.boolVal typed) ∧
    lookupKV (ttl_cacheParameters maxsize ttl timer typed) "ttl"
      = some (PVal.num (some ttl)) ∧
    lookupKV (ttl_cacheParameters maxsize ttl timer typed) "timer"
      = some (PVal.fnVal timer) := by
  refine ⟨rfl, rfl, rfl, rfl, rfl, rfl, ?_, ?_, ?_, ?_⟩ <;>
    simp [lookupKV, rr_cacheParameters, ttl_cacheParameters]

/-- C6: the cache built for an `rr_cache` wrapper receives that decorator
invocation's own `choice` callable, and the cache built for a `ttl_cache`
wrapper receives its own `ttl` and `timer`; two invocations supplying
different callables yield caches holding different callables. -/
theorem per_instance_callables (m : Option Nat)
    (choice c2 ttl timer tm2 : Nat) :
    (rr_mkCache m choice).choice = choice ∧
    (ttl_mkCache Nat Nat m ttl timer).timer = timer ∧
    (ttl_mkCache Nat Nat m ttl timer).ttl = ttl ∧
    ((rr_mkCache m choice).choice = (rr_mkCache m c2).choice ↔
      choice = c2) ∧
    ((ttl_mkCache Nat Nat m ttl timer).timer
        = (ttl_mkCache Nat Nat m ttl tm2).timer ↔ timer = tm2) := by
  cases m <;> simp [rr_mkCache, ttl_mkCache]

/-- C9: `fifo_cache`, `lfu_cache`, `lru_cache`, `mru_cache` and `rr_cache`
forward `maxsize` to their cache constructor verbatim — also when it is
`None` — while only `ttl_cache` maps `None` to an infinite capacity. -/
theorem maxsize_none_passthrough (choice ttl timer : Nat) :
    (fifo_mkCache none).maxsize = none ∧
    (lfu_mkCache none).maxsize = none ∧
    (lru_mkCache none).maxsize = none ∧
    (mru_mkCache none).maxsize = none ∧
    (rr_mkCache none choice).maxsize = none ∧
    (∀ m : Option Nat, (fifo_mkCache m).maxsize = m) ∧
    (∀ m : Option Nat, (lfu_mkCache m).maxsize = m) ∧
    (∀ m : Option Nat, (lru_mkCache m).maxsize = m) ∧
    (∀ m : Option Nat, (mru_mkCache m).maxsize = m) ∧
    (∀ m : Option Nat, (rr_mkCache m choice).maxsize = m) ∧
    (ttl_mkCache Nat Nat none ttl timer).capacity = Capacity.inf ∧
    (∀ m : Nat, (ttl_mkCache Nat Nat (some m) ttl timer).capacity
      = Capacity.fin m) :=
  ⟨rfl, rfl, rfl, rfl, rfl, fun _ => rfl, fun _ => rfl, fun _ => rfl,
    fun _ => rfl, fun _ => rfl, rfl, fun _ => rfl⟩

end Cachetools
